import Mathlib

/-!
Verification development for the APICheck HTTP/JSON API test runner
(src/apicheck/apicheck.py, the packaged module; the top-level
src/apicheck.py is an older duplicate of the same program that lacks
the base URL parameter, the division guard and the missing-name
sentinel, as the specification itself notes).

The embedding models:
  - JSON values as the inductive `JValue`; Python floats are carried as
    rationals (only their equality, their runtime type and an
    approximate decimal rendering are ever observed by the program);
  - a test case as the record `TestCase`, with every field optional,
    matching the JSON object read from the tests file with the field
    types of the data model (name/url/method strings, payload a JSON
    value, the two expected maps insertion-ordered key/value lists as
    produced by an order-preserving JSON parser);
  - the HTTP collaborator as a function from the request actually
    issued (`Request`) to `Option JValue`: `some v` means the call
    returned and `r.json()` decoded `v`, `none` means `r.json()` raised
    ValueError.  Network-level transport failures are out of scope, as
    in the specification.
  - wall-clock timing as environment inputs: the measured elapsed time
    of the i-th test and of the whole batch are parameters of
    `run_all_tests`.

Exceptions that `__run_test` can raise are modelled by `PyErr`:
`testFailed msg` is the TestFailedException the engine raises at every
check failure, `typeError` is the uncaught TypeError Python raises when
a value or type check subscripts a response that decoded to a non-dict
JSON value (list, string, number, null), and `keyError` is the uncaught
KeyError of `test["name"]` in the PASSED branch of `run_all_tests`
(proved unreachable below).
-/

set_option autoImplicit false

namespace APICheck

/-- A JSON value as decoded by Python json: None, bool, int, float
(carried as an exact rational), str, list, dict (insertion-ordered
association list with unique keys, as json.load produces). -/
inductive JValue : Type where
  | null : JValue
  | bool : Bool → JValue
  | int : Int → JValue
  | float : Rat → JValue
  | str : String → JValue
  | arr : List JValue → JValue
  | obj : List (String × JValue) → JValue
  deriving Repr

/-- Python dict lookup on the association list representing a decoded
JSON object (keys are unique, so first match is the binding). -/
def lookupJ : List (String × JValue) → String → Option JValue
  | [], _ => none
  | (k, v) :: rest, key => if k = key then some v else lookupJ rest key

/-- Numeric view used by Python equality: bool counts as 0 or 1, int
and float by value; everything else is not a number. -/
def toRatQ : JValue → Option Rat
  | .bool b => some (if b then 1 else 0)
  | .int n => some (n : Rat)
  | .float q => some q
  | _ => none

mutual

/-- Python `==` on decoded JSON values: deep structural comparison with
numeric types compared by value (so `1 == 1.0` and `True == 1`), strings
by content, lists pointwise, dicts by key set and value-wise equality. -/
def pyEq : JValue → JValue → Bool
  | .null, .null => true
  | .str s, .str t => s == t
  | .arr xs, .arr ys => pyEqList xs ys
  | .obj a, .obj b => (a.length == b.length) && pyEqObj a b
  | x, y => (toRatQ x).isSome && toRatQ x == toRatQ y

def pyEqList : List JValue → List JValue → Bool
  | [], [] => true
  | x :: xs, y :: ys => pyEq x y && pyEqList xs ys
  | _, _ => false

def pyEqObj : List (String × JValue) → List (String × JValue) → Bool
  | [], _ => true
  | (k, v) :: rest, b =>
    (match lookupJ b k with
     | some w => pyEq v w
     | none => false) && pyEqObj rest b

end

/-- Decimal digits of the fractional part of a nonnegative rational,
with fuel; models (approximately) the shortest-decimal rendering Python
uses for floats.  Stops at the first exact digit string or after `fuel`
digits. -/
def fracDigits : Rat → Nat → String
  | _, 0 => ""
  | q, Nat.succ fuel =>
    if q = 0 then ""
    else
      let q10 := q * 10
      let d := Rat.floor q10
      toString d.toNat ++ fracDigits (q10 - (d : Rat)) fuel

/-- Python str() of a float value, modelled over the exact rational:
sign, integer part, then fractional digits ("1.0" when integral).
Decimal rendering of non-terminating expansions is cut at 17 digits;
this approximates the host float repr, which no claim observes. -/
def pyFloatStr (q : Rat) : String :=
  let a : Rat := if q < 0 then -q else q
  let ip := (Rat.floor a).toNat
  let ds := fracDigits (a - (Rat.floor a : Rat)) 17
  (if q < 0 then "-" else "") ++ toString ip ++ "." ++ (if ds = "" then "0" else ds)

mutual

/-- Python repr() of a decoded JSON value (as used inside containers by
str()): strings quoted, True/False/None, numbers by value. -/
def pyRepr : JValue → String
  | .null => "None"
  | .bool b => if b then "True" else "False"
  | .int n => toString n
  | .float q => pyFloatStr q
  | .str s => "\x27" ++ s ++ "\x27"
  | .arr xs => "[" ++ pyReprList xs ++ "]"
  | .obj kvs => "\x7b" ++ pyReprObj kvs ++ "\x7d"

def pyReprList : List JValue → String
  | [] => ""
  | [x] => pyRepr x
  | x :: y :: ys => pyRepr x ++ ", " ++ pyReprList (y :: ys)

def pyReprObj : List (String × JValue) → String
  | [] => ""
  | [(k, v)] => "\x27" ++ k ++ "\x27: " ++ pyRepr v
  | (k, v) :: p :: ps => "\x27" ++ k ++ "\x27: " ++ pyRepr v ++ ", " ++ pyReprObj (p :: ps)

end

/-- Python str() of a decoded JSON value: like repr but a bare string
at top level. -/
def pyStr : JValue → String
  | .str s => s
  | v => pyRepr v

/-- Python str.upper(), for the ASCII method and format strings the
program compares (spelled over the character list so that it evaluates
inside the kernel). -/
def pyUpper (s : String) : String := String.mk (s.data.map Char.toUpper)

/-- One test case as loaded from the JSON tests file: a JSON object in
which every field may be absent, with the field types of the data model
(section 3 of the spec).  A type tag that is not a string behaves under
the `==` comparisons of `__run_test` exactly like an unknown string
tag, so tags are carried as strings. -/
structure TestCase where
  name : Option String := none
  url : Option String := none
  method : Option String := none
  payload : Option JValue := none
  expected_response_values : Option (List (String × JValue)) := none
  expected_response_types : Option (List (String × String)) := none

/-- The HTTP request `__run_test` hands to the requests library:
`requests.get(url)`, or `requests.post(url, json=payload)` /
`requests.post(url)` folded into one constructor with the optional
payload. -/
inductive Request : Type where
  | get (url : String)
  | post (url : String) (payload : Option JValue)

/-- Exceptions `__run_test` can raise: the TestFailedException carrying
its message, the uncaught TypeError of subscripting a non-dict decoded
response, and the uncaught KeyError of `test["name"]` in the PASSED
branch of `run_all_tests` (unreachable, proved below). -/
inductive PyErr : Type where
  | testFailed (msg : String)
  | typeError
  | keyError
  deriving Repr, DecidableEq

instance : DecidableEq (Except PyErr Unit) := fun a b =>
  match a, b with
  | .ok (), .ok () => isTrue rfl
  | .error e, .error f =>
    if h : e = f then isTrue (by rw [h]) else isFalse (fun hh => h (Except.error.inj hh))
  | .ok _, .error _ => isFalse (fun hh => Except.noConfusion hh)
  | .error _, .ok _ => isFalse (fun hh => Except.noConfusion hh)

/-- Errors of the second try block of `__run_test` (the response
checks): KeyError with the missing key, TestFailedException with its
message, and the TypeError of subscripting a non-dict response. -/
inductive ChkErr : Type where
  | keyError (k : String)
  | failed (msg : String)
  | typeErr
  deriving Repr

/-- The Python class tags the type checks dispatch on
(`str` / `int` / `float`). -/
inductive PyType : Type where
  | str
  | int
  | float
  deriving Repr, DecidableEq

/-- Python isinstance on a decoded JSON value against str/int/float.
A bool is an instance of int (bool subclasses int in Python); an int is
not an instance of float. -/
def isinstance : JValue → PyType → Bool
  | .str _, .str => true
  | .int _, .int => true
  | .bool _, .int => true
  | .float _, .float => true
  | _, _ => false

/-- str() of the Python class object passed as expected type. -/
def pyTypeClassStr : PyType → String
  | .str => "<class \x27str\x27>"
  | .int => "<class \x27int\x27>"
  | .float => "<class \x27float\x27>"

/-- str(type(val)) for a decoded JSON value. -/
def pyTypeOf : JValue → String
  | .null => "<class \x27NoneType\x27>"
  | .bool _ => "<class \x27bool\x27>"
  | .int _ => "<class \x27int\x27>"
  | .float _ => "<class \x27float\x27>"
  | .str _ => "<class \x27str\x27>"
  | .arr _ => "<class \x27list\x27>"
  | .obj _ => "<class \x27dict\x27>"

/-- Message of the first try block of `__run_test` when a required key
is missing from the test object. -/
def missingKeyMsg (k : String) : String :=
  "Malformed test. Must provide \x27" ++ k ++ "\x27 in tests file."

/-- Message the second try block of `__run_test` converts a KeyError
into. -/
def keyNotFoundMsg (k : String) : String :=
  "Expected key \x27" ++ k ++ "\x27 not found."

/-- Message raised on an exact-value mismatch, from
`"Expected value '%s' at key '%s' but got '%s'."` with str() of the
expected value, the key and the actual value. -/
def valueMismatchMsg (expv : JValue) (k : String) (actual : JValue) : String :=
  "Expected value \x27" ++ pyStr expv ++ "\x27 at key \x27" ++ k ++
    "\x27 but got \x27" ++ pyStr actual ++ "\x27."

/-- Message raised on an unknown expected-type tag. -/
def malformedTypesMsg : String :=
  "Malformed test. Expected types allowed: \x27str\x27, \x27int\x27, \x27float\x27"

/-- Message built by `__get_expected_type_error_message`, from
`"Invalid type at key '%s'. Expected '%s' got '%s'."` with str() of the
key, the expected class and type(val). -/
def expectedTypeErrorMessage (k : String) (v : JValue) (e : PyType) : String :=
  "Invalid type at key \x27" ++ k ++ "\x27. Expected \x27" ++ pyTypeClassStr e ++
    "\x27 got \x27" ++ pyTypeOf v ++ "\x27."

/-- Python `resp[key]` on the decoded response: the binding when resp
is a dict holding the key, KeyError when a dict without it, TypeError
when resp decoded to any non-dict JSON value. -/
def getItem (resp : JValue) (k : String) : Except ChkErr JValue :=
  match resp with
  | .obj kvs =>
    match lookupJ kvs k with
    | some v => .ok v
    | none => .error (.keyError k)
  | _ => .error .typeErr

/-- `__test_expected_type`: raise a TestFailedException with the
formatted message when isinstance fails. -/
def testExpectedType (k : String) (v : JValue) (e : PyType) : Except ChkErr Unit :=
  if isinstance v e then .ok () else .error (.failed (expectedTypeErrorMessage k v e))

/-- The exact-value loop of `__run_test`: for each expected key in
iteration order, look the key up in the response (KeyError aborts),
compare with Python `==`, and raise on the first mismatch. -/
def checkValues (resp : JValue) : List (String × JValue) → Except ChkErr Unit
  | [] => .ok ()
  | (k, expv) :: rest =>
    match getItem resp k with
    | .error e => .error e
    | .ok v =>
      if pyEq expv v then checkValues resp rest
      else .error (.failed (valueMismatchMsg expv k v))

/-- The expected-type loop of `__run_test`: for each key in iteration
order, look the key up in the response (KeyError aborts), then dispatch
on the tag; an unrecognized tag raises the malformed-test message. -/
def checkTypes (resp : JValue) : List (String × String) → Except ChkErr Unit
  | [] => .ok ()
  | (k, tag) :: rest =>
    match getItem resp k with
    | .error e => .error e
    | .ok v =>
      if tag = "string" then
        match testExpectedType k v PyType.str with
        | .ok _ => checkTypes resp rest
        | .error e => .error e
      else if tag = "int" then
        match testExpectedType k v PyType.int with
        | .ok _ => checkTypes resp rest
        | .error e => .error e
      else if tag = "float" then
        match testExpectedType k v PyType.float with
        | .ok _ => checkTypes resp rest
        | .error e => .error e
      else .error (.failed malformedTypesMsg)

/-- The second try block of `__run_test`: run the value checks, then
the type checks; a KeyError from either is converted into the
key-not-found TestFailedException, a TestFailedException passes
through, and a TypeError escapes uncaught. -/
def runChecks (resp : JValue) (t : TestCase) : Except PyErr Unit :=
  let r : Except ChkErr Unit :=
    match (match t.expected_response_values with
           | some evs => checkValues resp evs
           | none => .ok ()) with
    | .error e => .error e
    | .ok _ =>
      match t.expected_response_types with
      | some ets => checkTypes resp ets
      | none => .ok ()
  match r with
  | .ok _ => .ok ()
  | .error (.keyError k) => .error (.testFailed (keyNotFoundMsg k))
  | .error (.failed m) => .error (.testFailed m)
  | .error .typeErr => .error .typeError

/-- After the method dispatch of `__run_test`: issue the request, and
convert the ValueError of `r.json()` into the decode-failure
TestFailedException, then run the response checks. -/
def afterDispatch (http : Request → Option JValue) (t : TestCase) (req : Request) :
    Except PyErr Unit :=
  match http req with
  | none => .error (.testFailed "Could not decode JSON from response.")
  | some resp => runChecks resp t

/-- `__run_test`: resolve name, url and method in that order (a missing
key raises the malformed-test message for that key), build the full URL
as base_url concatenated with the url field, dispatch on the
upper-cased method (GET without body, POST with the optional payload,
anything else the allowed-methods message), then issue the request and
check the response. -/
def runTest (http : Request → Option JValue) (base : String) (t : TestCase) :
    Except PyErr Unit :=
  match t.name with
  | none => .error (.testFailed (missingKeyMsg "name"))
  | some _ =>
    match t.url with
    | none => .error (.testFailed (missingKeyMsg "url"))
    | some u =>
      match t.method with
      | none => .error (.testFailed (missingKeyMsg "method"))
      | some m =>
        if pyUpper m = "GET" then afterDispatch http t (Request.get (base ++ u))
        else if pyUpper m = "POST" then
          afterDispatch http t (Request.post (base ++ u) t.payload)
        else .error (.testFailed "Malformed test. Allowed methods are GET and POST")

/-- One entry of `self.results`: the per-test dictionary built by
`run_all_tests`, with error_msg present exactly on the FAILED branch. -/
structure TestResult where
  name : String
  status : String
  elapsed_time : Rat
  error_msg : Option String := none
  deriving Repr, DecidableEq

/-- The statistics an APICheck instance carries across one run:
`self.results`, `self.passed`, `self.failed`,
`self.total_elapsed_time`. -/
structure APICheckState where
  results : List TestResult
  passed : Nat
  failed : Nat
  total_elapsed_time : Rat
  deriving Repr, DecidableEq

/-- The per-test loop of `run_all_tests`.  `i` is the enumerate index,
used to look the measured elapsed time of each test up in the `eo`
environment.  A TestFailedException is caught and recorded as a FAILED
result (with the sentinel name when the name key is absent); any other
exception escapes, returning the state as mutated so far together with
the exception. -/
def runLoop (http : Request → Option JValue) (base : String) (eo : Nat → Rat) :
    Nat → List TestCase → APICheckState → APICheckState × Option PyErr
  | _, [], s => (s, none)
  | i, t :: rest, s =>
    match runTest http base t, t.name with
    | .ok _, some n =>
      runLoop http base eo (i + 1) rest
        { s with results := s.results ++ [{ name := n, status := "PASSED", elapsed_time := eo i }],
                 passed := s.passed + 1 }
    | .ok _, none => (s, some PyErr.keyError)
    | .error (.testFailed m), _ =>
      runLoop http base eo (i + 1) rest
        { s with results := s.results ++
                   [{ name := t.name.getD "ERROR: NAME NOT PROVIDED", status := "FAILED",
                      elapsed_time := eo i, error_msg := some m }],
                 failed := s.failed + 1 }
    | .error e, _ => (s, some e)

/-- `run_all_tests`: reset results and the counters, run every loaded
test in order, and afterwards store the measured wall-clock span of the
whole batch (`totalElapsed`); when an exception escapes the loop,
the statement after the loop is not reached, so total_elapsed_time
keeps its previous value. -/
def run_all_tests (s : APICheckState) (http : Request → Option JValue) (base : String)
    (eo : Nat → Rat) (totalElapsed : Rat) (tests : List TestCase) :
    APICheckState × Option PyErr :=
  let s0 := { s with results := ([] : List TestResult), passed := 0, failed := 0 }
  match runLoop http base eo 0 tests s0 with
  | (st, none) => ({ st with total_elapsed_time := totalElapsed }, none)
  | (st, some e) => (st, some e)

/-- The success-percentage computation of `__output_results`:
`total_tests = passed + failed`, replaced by 1 when not positive (the
division-by-zero guard), then `passed / total_tests * 100` with Python
true division, exact over the rationals. -/
def successPercent (passed failed : Nat) : Rat :=
  let total_tests : Nat := passed + failed
  let total_tests : Nat := if total_tests > 0 then total_tests else 1
  ((passed : Rat) / (total_tests : Rat)) * 100

/-- Round a rational to the nearest integer, ties to even; models the
rounding of Python round() and of %-float formatting. -/
def roundHalfEven (x : Rat) : Int :=
  let f := Rat.floor x
  let r := x - (f : Rat)
  if r < 1 / 2 then f
  else if 1 / 2 < r then f + 1
  else if f % 2 = 0 then f else f + 1

/-- Python round(x, d), modelled half-to-even over the exact value. -/
def pyRound (x : Rat) (d : Nat) : Rat :=
  (roundHalfEven (x * (10 : Rat) ^ d) : Rat) / (10 : Rat) ^ d

/-- Left-pad a digit string with zeros to width `d`. -/
def padZeros (s : String) (d : Nat) : String :=
  String.mk (List.replicate (d - s.length) '0') ++ s

/-- Fixed-point rendering with `d` decimals, as produced by the
`%.df` format directives of the text report (rounding modelled
half-to-even over the exact value). -/
def fmtFixed (d : Nat) (q : Rat) : String :=
  let a : Rat := if q < 0 then -q else q
  let n : Nat := (roundHalfEven (a * (10 : Rat) ^ d)).toNat
  let ip : Nat := n / 10 ^ d
  let fp : Nat := n % 10 ^ d
  (if q < 0 then "-" else "") ++ toString ip ++
    (if d = 0 then "" else "." ++ padZeros (toString fp) d)

/-- Field access on a JSON object document (observer used to state
what the rendered JSON report contains). -/
def jGet : JValue → String → Option JValue
  | .obj kvs, k => lookupJ kvs k
  | _, _ => none

/-- The per-test dictionary as placed in the test_results array of the
JSON report. -/
def testResultJson (r : TestResult) : JValue :=
  .obj ([("name", .str r.name), ("status", .str r.status),
         ("elapsed_time", .float r.elapsed_time)] ++
    (match r.error_msg with
     | some m => [("error_msg", .str m)]
     | none => []))

/-- The res_json document `__output_results` serializes in JSON mode:
a summary object with passed, failed, success_percentage and
total_elapsed_time, then the test_results array. -/
def resJson (s : APICheckState) : JValue :=
  .obj [("summary", .obj [
          ("passed", .int (s.passed : Int)),
          ("failed", .int (s.failed : Int)),
          ("success_percentage", .float (successPercent s.passed s.failed)),
          ("total_elapsed_time", .float s.total_elapsed_time)]),
        ("test_results", .arr (s.results.map testResultJson))]

/-- `n` spaces. -/
def spaces (n : Nat) : String := String.mk (List.replicate n ' ')

mutual

/-- Serialization of a JSON value as json.dump(..., indent=4) writes
it, at nesting level `lvl` (string escaping is not modelled; no string
the program emits needs it). -/
def jsonSer : JValue → Nat → String
  | .null, _ => "null"
  | .bool b, _ => if b then "true" else "false"
  | .int n, _ => toString n
  | .float q, _ => pyFloatStr q
  | .str s, _ => "\"" ++ s ++ "\""
  | .arr [], _ => "[]"
  | .arr (x :: xs), lvl =>
    "[\n" ++ jsonSerItems (x :: xs) (lvl + 1) ++ "\n" ++ spaces (4 * lvl) ++ "]"
  | .obj [], _ => "\x7b\x7d"
  | .obj (p :: ps), lvl =>
    "\x7b\n" ++ jsonSerPairs (p :: ps) (lvl + 1) ++ "\n" ++ spaces (4 * lvl) ++ "\x7d"

def jsonSerItems : List JValue → Nat → String
  | [], _ => ""
  | [x], lvl => spaces (4 * lvl) ++ jsonSer x lvl
  | x :: y :: ys, lvl =>
    spaces (4 * lvl) ++ jsonSer x lvl ++ ",\n" ++ jsonSerItems (y :: ys) lvl

def jsonSerPairs : List (String × JValue) → Nat → String
  | [], _ => ""
  | [(k, v)], lvl => spaces (4 * lvl) ++ "\"" ++ k ++ "\": " ++ jsonSer v lvl
  | (k, v) :: p :: ps, lvl =>
    spaces (4 * lvl) ++ "\"" ++ k ++ "\": " ++ jsonSer v lvl ++ ",\n" ++
      jsonSerPairs (p :: ps) lvl

end

/-- The per-test block of the text report: name, status, elapsed time
with six decimals, and the error message line only when FAILED (a
FAILED entry always carries its message, so the getD default is never
used). -/
def testResultLines (r : TestResult) : String :=
  r.name ++ "\n" ++ "\tStatus:" ++ r.status ++ "\n" ++
    "\tElapsed time: " ++ fmtFixed 6 r.elapsed_time ++ "\n" ++
    (if r.status = "FAILED" then "\tError message: " ++ r.error_msg.getD "" ++ "\n" else "")

/-- The text-mode report of `__output_results`: banner, counts, success
percentage rounded to two decimals with a percent sign, total elapsed
time with three decimals, banner, then the per-test blocks. -/
def textReport (s : APICheckState) : String :=
  let success_percent := successPercent s.passed s.failed
  "***\n" ++ "TEST SUMMARY\n" ++ "------------\n" ++
    "Tests passed: " ++ toString s.passed ++ "\n" ++
    "Tests failed: " ++ toString s.failed ++ "\n" ++
    "Success percentage : " ++ fmtFixed 2 (pyRound success_percent 2) ++ "%\n" ++
    "Total elapsed time: " ++ fmtFixed 3 s.total_elapsed_time ++ " seconds\n" ++
    "***\n" ++ String.join (s.results.map testResultLines)

/-- `__output_results`: render the state to the output sink.  The
format string is upper-cased and compared against JSON then TEXT; any
other format falls through both branches and writes nothing.  The
method only reads the instance, so it is modelled as returning the
(unchanged) state together with the text written to the stream; the
KeyError handler around the body is unreachable because every FAILED
result carries its error_msg. -/
def outputResults (s : APICheckState) (format : String) : APICheckState × String :=
  if pyUpper format = "JSON" then (s, jsonSer (resJson s) 0)
  else if pyUpper format = "TEXT" then (s, textReport s)
  else (s, "")

/-- Whether a `__run_test` outcome is an exception that
`run_all_tests` does not catch. -/
def uncaught : Except PyErr Unit → Bool
  | .error (.testFailed _) => false
  | .error _ => true
  | .ok _ => false

/-- The result dictionary `run_all_tests` records for the test at
enumerate index `i` (observer for stating theorems; the last branch is
unreachable when no exception escapes, and the PASSED branch getD
default is never used because a passing test resolved its name). -/
def caseResult (http : Request → Option JValue) (base : String) (eo : Nat → Rat)
    (i : Nat) (t : TestCase) : TestResult :=
  match runTest http base t with
  | .ok _ => { name := t.name.getD "", status := "PASSED", elapsed_time := eo i }
  | .error (.testFailed m) =>
    { name := t.name.getD "ERROR: NAME NOT PROVIDED", status := "FAILED",
      elapsed_time := eo i, error_msg := some m }
  | .error _ => { name := "", status := "", elapsed_time := eo i }

/-- The result dictionaries recorded for a list of tests starting at
enumerate index `i`. -/
def caseResults (http : Request → Option JValue) (base : String) (eo : Nat → Rat) :
    Nat → List TestCase → List TestResult
  | _, [] => []
  | i, t :: rest => caseResult http base eo i t :: caseResults http base eo (i + 1) rest

section Lemmas

variable (http : Request → Option JValue) (base : String) (eo : Nat → Rat)

theorem runTest_ok_name (t : TestCase) (u : Unit) (h : runTest http base t = .ok u) :
    ∃ n, t.name = some n := by
  cases hn : t.name with
  | none => rw [runTest, hn] at h; exact absurd h (by simp)
  | some n => exact ⟨n, rfl⟩

theorem caseResults_length (tests : List TestCase) :
    ∀ i, (caseResults http base eo i tests).length = tests.length := by
  induction tests with
  | nil => intro i; rfl
  | cons t rest ih => intro i; simp [caseResults, ih]

theorem caseResults_getElem (tests : List TestCase) :
    ∀ i j, (caseResults http base eo i tests)[j]? =
      (tests[j]?).map (caseResult http base eo (i + j)) := by
  induction tests with
  | nil => intro i j; simp [caseResults]
  | cons t rest ih =>
    intro i j
    cases j with
    | zero => simp [caseResults]
    | succ j0 =>
      simp only [caseResults, List.getElem?_cons_succ, ih (i + 1) j0]
      have : i + 1 + j0 = i + (j0 + 1) := by omega
      rw [this]

theorem caseResults_statuses (tests : List TestCase)
    (h : ∀ t ∈ tests, uncaught (runTest http base t) = false) :
    ∀ i, ((caseResults http base eo i tests).countP (fun r => r.status == "PASSED")) +
      ((caseResults http base eo i tests).countP (fun r => r.status == "FAILED")) =
        tests.length := by
  induction tests with
  | nil => intro i; rfl
  | cons t rest ih =>
    intro i
    have ht := h t (List.mem_cons_self t rest)
    have hrest := fun t0 h0 => h t0 (List.mem_cons_of_mem t h0)
    simp only [caseResults, List.countP_cons, List.length_cons]
    cases hr : runTest http base t with
    | ok u =>
      simp [caseResult, hr]
      have := ih hrest (i + 1)
      omega
    | error e =>
      cases e with
      | testFailed m =>
        simp [caseResult, hr]
        have := ih hrest (i + 1)
        omega
      | typeError => rw [hr] at ht; simp [uncaught] at ht
      | keyError => rw [hr] at ht; simp [uncaught] at ht

theorem runLoop_eq (tests : List TestCase)
    (h : ∀ t ∈ tests, uncaught (runTest http base t) = false) :
    ∀ i s, runLoop http base eo i tests s =
      ({ results := s.results ++ caseResults http base eo i tests,
         passed := s.passed +
           (caseResults http base eo i tests).countP (fun r => r.status == "PASSED"),
         failed := s.failed +
           (caseResults http base eo i tests).countP (fun r => r.status == "FAILED"),
         total_elapsed_time := s.total_elapsed_time }, none) := by
  induction tests with
  | nil => intro i s; simp [runLoop, caseResults]
  | cons t rest ih =>
    intro i s
    have ht := h t (List.mem_cons_self t rest)
    have hrest := fun t0 h0 => h t0 (List.mem_cons_of_mem t h0)
    cases hr : runTest http base t with
    | ok u =>
      obtain ⟨n, hn⟩ := runTest_ok_name http base t u hr
      rw [runLoop, hr, hn]
      dsimp only
      rw [ih hrest (i + 1)]
      simp [caseResults, caseResult, hr, hn, List.countP_cons]
      omega
    | error e =>
      cases e with
      | testFailed m =>
        rw [runLoop, hr]
        dsimp only
        rw [ih hrest (i + 1)]
        simp [caseResults, caseResult, hr, List.countP_cons]
        omega
      | typeError => rw [hr] at ht; simp [uncaught] at ht
      | keyError => rw [hr] at ht; simp [uncaught] at ht

theorem runLoop_none_imp (tests : List TestCase) :
    ∀ i s, (runLoop http base eo i tests s).2 = none →
      ∀ t ∈ tests, uncaught (runTest http base t) = false := by
  induction tests with
  | nil => intro i s _ t hmem; exact absurd hmem (List.not_mem_nil t)
  | cons t0 rest ih =>
    intro i s hnone t hmem
    cases hr : runTest http base t0 with
    | ok u =>
      obtain ⟨n, hn⟩ := runTest_ok_name http base t0 u hr
      rw [runLoop, hr, hn] at hnone
      rcases List.mem_cons.mp hmem with heq | hrest
      · rw [heq, hr]; rfl
      · exact ih (i + 1) _ hnone t hrest
    | error e =>
      cases e with
      | testFailed m =>
        rw [runLoop, hr] at hnone
        rcases List.mem_cons.mp hmem with heq | hrest
        · rw [heq, hr]; rfl
        · exact ih (i + 1) _ hnone t hrest
      | typeError => rw [runLoop, hr] at hnone; exact absurd hnone (by simp)
      | keyError => rw [runLoop, hr] at hnone; exact absurd hnone (by simp)

theorem run_all_tests_none_imp (s : APICheckState) (total : Rat) (tests : List TestCase)
    (h : (run_all_tests s http base eo total tests).2 = none) :
    ∀ t ∈ tests, uncaught (runTest http base t) = false := by
  rw [run_all_tests] at h
  rcases hl : runLoop http base eo 0 tests
      { s with results := ([] : List TestResult), passed := 0, failed := 0 } with ⟨st, oe⟩
  cases oe with
  | none => exact runLoop_none_imp http base eo tests 0 _ (by rw [hl])
  | some e => rw [hl] at h; simp at h

theorem run_all_tests_eq (s : APICheckState) (total : Rat) (tests : List TestCase)
    (h : ∀ t ∈ tests, uncaught (runTest http base t) = false) :
    run_all_tests s http base eo total tests =
      ({ results := caseResults http base eo 0 tests,
         passed := (caseResults http base eo 0 tests).countP (fun r => r.status == "PASSED"),
         failed := (caseResults http base eo 0 tests).countP (fun r => r.status == "FAILED"),
         total_elapsed_time := total }, none) := by
  rw [run_all_tests, runLoop_eq http base eo tests h 0]
  simp

end Lemmas

/-- C2: the success_percentage the reporter places in the summary is
`successPercent passed failed`; whenever at least one test ran it
equals passed / (passed + failed) * 100, and when no test ran
(passed = failed = 0) it is 0 — the replaced denominator guards the
division, and the reporter (a total function) raises nothing.  The
JSON branch serializes exactly this document. -/
theorem success_percentage_guarded (s : APICheckState) :
    ((jGet (resJson s) "summary").bind (fun j => jGet j "success_percentage")) =
      some (.float (successPercent s.passed s.failed)) ∧
    (0 < s.passed + s.failed →
      successPercent s.passed s.failed =
        ((s.passed : Rat) / ((s.passed : Rat) + (s.failed : Rat))) * 100) ∧
    (s.passed = 0 → s.failed = 0 → successPercent s.passed s.failed = 0) ∧
    (outputResults s "json").2 = jsonSer (resJson s) 0 := by
  refine ⟨?_, ?_, ?_, ?_⟩
  · simp [resJson, jGet, lookupJ]
  · intro h
    simp only [successPercent]
    rw [if_pos h]
    push_cast
    ring
  · intro h1 h2
    rw [h1, h2]
    norm_num [successPercent]
  · have hj : pyUpper "json" = "JSON" := by decide
    simp [outputResults, hj]

theorem success_percentage_guarded_witness :
    successPercent 3 1 = (((3 : Nat) : Rat) / (((3 : Nat) : Rat) + ((1 : Nat) : Rat))) * 100 ∧
    successPercent 0 0 = 0 :=
  ⟨(success_percentage_guarded ⟨[], 3, 1, 0⟩).2.1 (by decide),
   (success_percentage_guarded ⟨[], 0, 0, 0⟩).2.2.1 rfl rfl⟩

/-- C9: rendering reads the run state and returns it unchanged —
passed, failed, total_elapsed_time and the results sequence are the
same before and after for every format; the text written to the sink
(the second component) is the only output of the operation, which is a
total function. -/
theorem render_preserves_state (s : APICheckState) (format : String) :
    (outputResults s format).1 = s := by
  unfold outputResults
  by_cases h1 : pyUpper format = "JSON"
  · rw [if_pos h1]
  · rw [if_neg h1]
    by_cases h2 : pyUpper format = "TEXT"
    · rw [if_pos h2]
    · rw [if_neg h2]

/-- C10: a format string that upper-cases to neither JSON nor TEXT
falls through both branches of `__output_results`: nothing is written
to the sink and no error is raised — the state comes back unchanged
with the empty output. -/
theorem render_unknown_format_noop (s : APICheckState) (format : String)
    (h1 : pyUpper format ≠ "JSON") (h2 : pyUpper format ≠ "TEXT") :
    outputResults s format = (s, "") := by
  unfold outputResults
  rw [if_neg h1, if_neg h2]

theorem render_unknown_format_noop_witness :
    pyUpper "Csv" ≠ "JSON" ∧ pyUpper "Csv" ≠ "TEXT" ∧
    outputResults ⟨[⟨"t1", "PASSED", 1, none⟩], 1, 0, 2⟩ "Csv" =
      (⟨[⟨"t1", "PASSED", 1, none⟩], 1, 0, 2⟩, "") :=
  ⟨by decide, by decide,
   render_unknown_format_noop ⟨[⟨"t1", "PASSED", 1, none⟩], 1, 0, 2⟩ "Csv"
     (by decide) (by decide)⟩

/-- C7: with the required fields present, the request URL is the base
URL concatenated with the url field (no slash normalization appears
anywhere in the construction); the method is upper-cased before being
compared with GET and POST, a GET request carries no body, a POST
carries the optional payload field (an empty POST when absent, folded
into the Option), and any other method makes the case fail with the
allowed-methods message. -/
theorem request_construction (http : Request → Option JValue) (base : String) (t : TestCase)
    (n u m : String) (hn : t.name = some n) (hu : t.url = some u) (hm : t.method = some m) :
    (pyUpper m = "GET" →
      runTest http base t = afterDispatch http t (Request.get (base ++ u))) ∧
    (pyUpper m = "POST" →
      runTest http base t = afterDispatch http t (Request.post (base ++ u) t.payload)) ∧
    (pyUpper m ≠ "GET" → pyUpper m ≠ "POST" →
      runTest http base t =
        .error (.testFailed "Malformed test. Allowed methods are GET and POST")) := by
  refine ⟨?_, ?_, ?_⟩
  · intro h
    simp only [runTest, hn, hu, hm]
    rw [if_pos h]
  · intro h
    have hg : pyUpper m ≠ "GET" := by rw [h]; decide
    simp only [runTest, hn, hu, hm]
    rw [if_neg hg, if_pos h]
  · intro hg hp
    simp only [runTest, hn, hu, hm]
    rw [if_neg hg, if_neg hp]

theorem request_construction_witness :
    runTest (fun _ => some (JValue.obj [])) "http://h"
        { name := some "a", url := some "/x", method := some "get" } =
      afterDispatch (fun _ => some (JValue.obj []))
        { name := some "a", url := some "/x", method := some "get" }
        (Request.get ("http://h" ++ "/x")) ∧
    runTest (fun _ => some (JValue.obj [])) "http://h"
        { name := some "a", url := some "/x", method := some "Post",
          payload := some (JValue.int 7) } =
      afterDispatch (fun _ => some (JValue.obj []))
        { name := some "a", url := some "/x", method := some "Post",
          payload := some (JValue.int 7) }
        (Request.post ("http://h" ++ "/x") (some (JValue.int 7))) ∧
    runTest (fun _ => some (JValue.obj [])) "http://h"
        { name := some "a", url := some "/x", method := some "PUT" } =
      .error (.testFailed "Malformed test. Allowed methods are GET and POST") :=
  ⟨(request_construction _ _ _ "a" "/x" "get" rfl rfl rfl).1 (by decide),
   (request_construction _ _ _ "a" "/x" "Post" rfl rfl rfl).2.1 (by decide),
   (request_construction _ _ _ "a" "/x" "PUT" rfl rfl rfl).2.2 (by decide) (by decide)⟩

/-- C8: a case with neither expected map, whose HTTP call is made
(method resolves to GET or POST) and whose response body decodes as
JSON, performs no assertions: `__run_test` returns without raising on
any decoded response value, and a one-case run records a single PASSED
result. -/
theorem no_assertions_case_passes (s : APICheckState) (http : Request → Option JValue)
    (base : String) (eo : Nat → Rat) (total : Rat) (t : TestCase) (n u m : String)
    (resp : JValue)
    (hn : t.name = some n) (hu : t.url = some u) (hm : t.method = some m)
    (hev : t.expected_response_values = none) (het : t.expected_response_types = none)
    (hcall : (pyUpper m = "GET" ∧ http (Request.get (base ++ u)) = some resp) ∨
             (pyUpper m = "POST" ∧ http (Request.post (base ++ u) t.payload) = some resp)) :
    runTest http base t = .ok () ∧
    run_all_tests s http base eo total [t] =
      ({ results := [{ name := n, status := "PASSED", elapsed_time := eo 0 }],
         passed := 1, failed := 0, total_elapsed_time := total }, none) := by
  have hok : runTest http base t = .ok () := by
    rcases hcall with ⟨hg, hr⟩ | ⟨hp, hr⟩
    · simp only [runTest, hn, hu, hm]
      rw [if_pos hg]
      simp [afterDispatch, hr, runChecks, hev, het]
    · have hng : pyUpper m ≠ "GET" := by rw [hp]; decide
      simp only [runTest, hn, hu, hm]
      rw [if_neg hng, if_pos hp]
      simp [afterDispatch, hr, runChecks, hev, het]
  refine ⟨hok, ?_⟩
  have hesc : ∀ t0 ∈ [t], uncaught (runTest http base t0) = false := by
    intro t0 h0
    rw [List.mem_singleton] at h0
    subst h0
    rw [hok]
    rfl
  rw [run_all_tests_eq http base eo s total [t] hesc]
  simp [caseResults, caseResult, hok, hn, List.countP_cons]

theorem no_assertions_case_passes_witness :
    runTest (fun _ => some JValue.null) "h"
        { name := some "t1", url := some "/a", method := some "GET" } = .ok () ∧
    run_all_tests ⟨[], 0, 0, 0⟩ (fun _ => some JValue.null) "h" (fun _ => 0) 5
        [{ name := some "t1", url := some "/a", method := some "GET" }] =
      (⟨[⟨"t1", "PASSED", 0, none⟩], 1, 0, 5⟩, none) :=
  no_assertions_case_passes ⟨[], 0, 0, 0⟩ (fun _ => some JValue.null) "h" (fun _ => 0) 5
    { name := some "t1", url := some "/a", method := some "GET" } "t1" "/a" "GET"
    JValue.null rfl rfl rfl rfl rfl (Or.inl ⟨by decide, rfl⟩)

/-- C4: because bool subclasses int in Python, a boolean response
value passes an "int" type check (the check is a no-op and the loop
continues), while any float value at the key fails the check with the
type-mismatch message built from the key, the expected class and the
actual runtime type. -/
theorem int_check_bool_passes_float_fails (kvs : List (String × JValue)) (k : String)
    (rest : List (String × String)) (b : Bool) (q : Rat) :
    (lookupJ kvs k = some (JValue.bool b) →
      checkTypes (JValue.obj kvs) ((k, "int") :: rest) = checkTypes (JValue.obj kvs) rest) ∧
    (lookupJ kvs k = some (JValue.float q) →
      runChecks (JValue.obj kvs) { expected_response_types := some ((k, "int") :: rest) } =
        .error (.testFailed (expectedTypeErrorMessage k (JValue.float q) PyType.int))) ∧
    expectedTypeErrorMessage "pi" (JValue.float (157 / 50)) PyType.int =
      "Invalid type at key \x27pi\x27. Expected \x27<class \x27int\x27>\x27 got \x27<class \x27float\x27>\x27." := by
  refine ⟨?_, ?_, by decide⟩
  · intro h
    simp [checkTypes, getItem, h, testExpectedType, isinstance]
  · intro h
    simp [runChecks, checkTypes, getItem, h, testExpectedType, isinstance]

theorem int_check_bool_passes_float_fails_witness :
    checkTypes (JValue.obj [("flag", JValue.bool true)]) [("flag", "int")] = .ok () ∧
    runChecks (JValue.obj [("pi", JValue.float (157 / 50))])
        { expected_response_types := some [("pi", "int")] } =
      .error (.testFailed
        "Invalid type at key \x27pi\x27. Expected \x27<class \x27int\x27>\x27 got \x27<class \x27float\x27>\x27.") := by
  constructor
  · have h := (int_check_bool_passes_float_fails [("flag", JValue.bool true)] "flag" []
      true 0).1 rfl
    rw [h]
    rfl
  · have h := (int_check_bool_passes_float_fails [("pi", JValue.float (157 / 50))] "pi" []
      true (157 / 50)).2.1 rfl
    rw [h]
    rfl

/-- C5: the type-tag semantics of the expected-type loop: the string
tag accepts exactly textual values, the int tag exactly integral
numeric values (Python ints and bools), the float tag exactly float
values; a key whose tag is none of the three makes the case fail as a
malformed test, a type mismatch fails the case with the formatted
type-mismatch message, a key absent from the response fails it with
the key-not-found message, and a passing check moves on to the
remaining keys. -/
theorem type_tag_semantics (kvs : List (String × JValue)) (k tag : String)
    (rest : List (String × String)) (v : JValue) :
    (isinstance v PyType.str = true ↔ ∃ s0, v = JValue.str s0) ∧
    (isinstance v PyType.int = true ↔
      (∃ n0, v = JValue.int n0) ∨ (∃ b0, v = JValue.bool b0)) ∧
    (isinstance v PyType.float = true ↔ ∃ q0, v = JValue.float q0) ∧
    (lookupJ kvs k = none →
      runChecks (JValue.obj kvs) { expected_response_types := some ((k, tag) :: rest) } =
        .error (.testFailed (keyNotFoundMsg k))) ∧
    (lookupJ kvs k = some v → tag ≠ "string" → tag ≠ "int" → tag ≠ "float" →
      runChecks (JValue.obj kvs) { expected_response_types := some ((k, tag) :: rest) } =
        .error (.testFailed malformedTypesMsg)) ∧
    (lookupJ kvs k = some v → isinstance v PyType.str = false →
      runChecks (JValue.obj kvs) { expected_response_types := some ((k, "string") :: rest) } =
        .error (.testFailed (expectedTypeErrorMessage k v PyType.str))) ∧
    (lookupJ kvs k = some v → isinstance v PyType.int = false →
      runChecks (JValue.obj kvs) { expected_response_types := some ((k, "int") :: rest) } =
        .error (.testFailed (expectedTypeErrorMessage k v PyType.int))) ∧
    (lookupJ kvs k = some v → isinstance v PyType.float = false →
      runChecks (JValue.obj kvs) { expected_response_types := some ((k, "float") :: rest) } =
        .error (.testFailed (expectedTypeErrorMessage k v PyType.float))) ∧
    (lookupJ kvs k = some v → isinstance v PyType.str = true →
      checkTypes (JValue.obj kvs) ((k, "string") :: rest) = checkTypes (JValue.obj kvs) rest) ∧
    (lookupJ kvs k = some v → isinstance v PyType.int = true →
      checkTypes (JValue.obj kvs) ((k, "int") :: rest) = checkTypes (JValue.obj kvs) rest) ∧
    (lookupJ kvs k = some v → isinstance v PyType.float = true →
      checkTypes (JValue.obj kvs) ((k, "float") :: rest) = checkTypes (JValue.obj kvs) rest) := by
  refine ⟨?_, ?_, ?_, ?_, ?_, ?_, ?_, ?_, ?_, ?_, ?_⟩
  · cases v <;> simp [isinstance]
  · cases v <;> simp [isinstance]
  · cases v <;> simp [isinstance]
  · intro h
    simp [runChecks, checkTypes, getItem, h]
  · intro h h1 h2 h3
    simp [runChecks, checkTypes, getItem, h, h1, h2, h3]
  · intro h hv
    simp [runChecks, checkTypes, getItem, h, testExpectedType, hv]
  · intro h hv
    simp [runChecks, checkTypes, getItem, h, testExpectedType, hv]
  · intro h hv
    simp [runChecks, checkTypes, getItem, h, testExpectedType, hv]
  · intro h hv
    simp [checkTypes, getItem, h, testExpectedType, hv]
  · intro h hv
    simp [checkTypes, getItem, h, testExpectedType, hv]
  · intro h hv
    simp [checkTypes, getItem, h, testExpectedType, hv]

theorem type_tag_semantics_witness :
    runChecks (JValue.obj []) { expected_response_types := some [("id", "string")] } =
      .error (.testFailed (keyNotFoundMsg "id")) ∧
    runChecks (JValue.obj [("id", JValue.int 3)])
        { expected_response_types := some [("id", "number")] } =
      .error (.testFailed malformedTypesMsg) ∧
    runChecks (JValue.obj [("id", JValue.int 3)])
        { expected_response_types := some [("id", "string")] } =
      .error (.testFailed (expectedTypeErrorMessage "id" (JValue.int 3) PyType.str)) ∧
    runChecks (JValue.obj [("id", JValue.str "x")])
        { expected_response_types := some [("id", "int")] } =
      .error (.testFailed (expectedTypeErrorMessage "id" (JValue.str "x") PyType.int)) ∧
    runChecks (JValue.obj [("id", JValue.int 3)])
        { expected_response_types := some [("id", "float")] } =
      .error (.testFailed (expectedTypeErrorMessage "id" (JValue.int 3) PyType.float)) ∧
    checkTypes (JValue.obj [("id", JValue.int 3)]) [("id", "int")] =
      checkTypes (JValue.obj [("id", JValue.int 3)]) [] :=
  ⟨(type_tag_semantics [] "id" "string" [] JValue.null).2.2.2.1 rfl,
   (type_tag_semantics [("id", JValue.int 3)] "id" "number" [] (JValue.int 3)).2.2.2.2.1
     rfl (by decide) (by decide) (by decide),
   (type_tag_semantics [("id", JValue.int 3)] "id" "string" [] (JValue.int 3)).2.2.2.2.2.1
     rfl rfl,
   (type_tag_semantics [("id", JValue.str "x")] "id" "int" [] (JValue.str "x")).2.2.2.2.2.2.1
     rfl rfl,
   (type_tag_semantics [("id", JValue.int 3)] "id" "float" []
     (JValue.int 3)).2.2.2.2.2.2.2.1 rfl rfl,
   (type_tag_semantics [("id", JValue.int 3)] "id" "int" []
     (JValue.int 3)).2.2.2.2.2.2.2.2.2.1 rfl rfl⟩

theorem checkValues_skip_matching (kvs : List (String × JValue))
    (pre : List (String × JValue))
    (hpre : ∀ p ∈ pre, (lookupJ kvs p.1).elim false (fun w => pyEq p.2 w) = true) :
    ∀ L, checkValues (JValue.obj kvs) (pre ++ L) = checkValues (JValue.obj kvs) L := by
  induction pre with
  | nil => intro L; rfl
  | cons p pre0 ih =>
    intro L
    have hp := hpre p (List.mem_cons_self p pre0)
    have hrest := fun p0 h0 => hpre p0 (List.mem_cons_of_mem p h0)
    rcases p with ⟨k0, e0⟩
    cases hl : lookupJ kvs k0 with
    | none => rw [hl] at hp; exact absurd hp (by simp)
    | some w =>
      rw [hl] at hp
      simp only [Option.elim] at hp
      rw [List.cons_append, checkValues]
      simp only [getItem, hl]
      rw [if_pos hp]
      exact ih hrest L

/-- C6: the exact-value loop walks the expected map in iteration
order; with every earlier key matching, a key absent from the
response fails the case with the key-not-found message naming it, and
a key whose response value differs under Python deep JSON equality
(`pyEq`) fails the case with the mismatch message naming the key, the
expected value and the actual value — in both cases the result does
not depend on the keys after it (short-circuit), and a matching head
key just continues. -/
theorem value_check_first_mismatch (kvs : List (String × JValue))
    (pre post : List (String × JValue)) (k : String) (e v : JValue)
    (hpre : ∀ p ∈ pre, (lookupJ kvs p.1).elim false (fun w => pyEq p.2 w) = true) :
    (lookupJ kvs k = none →
      runChecks (JValue.obj kvs) { expected_response_values := some (pre ++ (k, e) :: post) } =
        .error (.testFailed (keyNotFoundMsg k))) ∧
    (lookupJ kvs k = some v → pyEq e v = false →
      runChecks (JValue.obj kvs) { expected_response_values := some (pre ++ (k, e) :: post) } =
        .error (.testFailed (valueMismatchMsg e k v))) ∧
    (lookupJ kvs k = some v → pyEq e v = true →
      checkValues (JValue.obj kvs) (pre ++ [(k, e)]) = .ok ()) := by
  have hskip := checkValues_skip_matching kvs pre hpre
  refine ⟨?_, ?_, ?_⟩
  · intro h
    simp only [runChecks, hskip ((k, e) :: post)]
    simp [checkValues, getItem, h]
  · intro h hne
    simp only [runChecks, hskip ((k, e) :: post)]
    simp [checkValues, getItem, h, hne]
  · intro h heq
    rw [hskip [(k, e)]]
    simp [checkValues, getItem, h, heq]

theorem value_check_first_mismatch_witness :
    runChecks (JValue.obj [("a", JValue.int 1), ("id", JValue.int 2)])
        { expected_response_values :=
            some [("a", JValue.int 1), ("id", JValue.int 1), ("zz", JValue.int 9)] } =
      .error (.testFailed (valueMismatchMsg (JValue.int 1) "id" (JValue.int 2))) ∧
    runChecks (JValue.obj [("a", JValue.int 1)])
        { expected_response_values := some [("a", JValue.int 1), ("missing", JValue.int 3)] } =
      .error (.testFailed (keyNotFoundMsg "missing")) ∧
    valueMismatchMsg (JValue.int 1) "id" (JValue.int 2) =
      "Expected value \x271\x27 at key \x27id\x27 but got \x272\x27." := by
  have hpre1 : ∀ p ∈ [(("a" : String), JValue.int 1)],
      (lookupJ [("a", JValue.int 1), ("id", JValue.int 2)] p.1).elim false
        (fun w => pyEq p.2 w) = true := by
    intro p hp
    rw [List.mem_singleton] at hp
    subst hp
    show pyEq (JValue.int 1) (JValue.int 1) = true
    rw [pyEq.eq_def]
    decide
  have hpre2 : ∀ p ∈ [(("a" : String), JValue.int 1)],
      (lookupJ [("a", JValue.int 1)] p.1).elim false (fun w => pyEq p.2 w) = true := by
    intro p hp
    rw [List.mem_singleton] at hp
    subst hp
    show pyEq (JValue.int 1) (JValue.int 1) = true
    rw [pyEq.eq_def]
    decide
  refine ⟨?_, ?_, ?_⟩
  · exact (value_check_first_mismatch [("a", JValue.int 1), ("id", JValue.int 2)]
      [("a", JValue.int 1)] [("zz", JValue.int 9)] "id" (JValue.int 1) (JValue.int 2)
      hpre1).2.1 rfl (by rw [pyEq.eq_def]; decide)
  · exact (value_check_first_mismatch [("a", JValue.int 1)]
      [("a", JValue.int 1)] [] "missing" (JValue.int 3) JValue.null hpre2).1 rfl
  · simp only [valueMismatchMsg, pyStr, pyRepr.eq_def]
    decide

/-- C1 counterexample: a test whose value check runs against a
response that decoded to a JSON array (`[]`) raises a TypeError at
`resp[key]` that neither except clause catches: the exception escapes
`run_all_tests`, the case is not converted into a FAILED result
(results stays empty), and the second test is never executed — so it
is not true that every error raised while executing a test is caught
and converted, nor that no exception escapes run. -/
theorem run_typeerror_escapes_counterexample :
    (run_all_tests ⟨[], 0, 0, 0⟩ (fun _ => some (JValue.arr [])) "http://h" (fun _ => 0) 0
        [{ name := some "t1", url := some "/x", method := some "GET",
           expected_response_values := some [("id", JValue.int 1)] },
         { name := some "t2", url := some "/y", method := some "GET" }]).2 =
      some PyErr.typeError ∧
    (run_all_tests ⟨[], 0, 0, 0⟩ (fun _ => some (JValue.arr [])) "http://h" (fun _ => 0) 0
        [{ name := some "t1", url := some "/x", method := some "GET",
           expected_response_values := some [("id", JValue.int 1)] },
         { name := some "t2", url := some "/y", method := some "GET" }]).1.results =
      [] := by
  constructor <;> decide

/-- C1 (amended): when no test raises an exception outside the
TestFailedException discipline (equivalently, no check subscripts a
non-object decoded response), every per-test error — missing required
field, bad method, undecodable response, failed value or type check —
is caught by the engine and converted into a FAILED TestResult
carrying the error message (with the sentinel name when the name key
is absent), the engine continues with the remaining cases, and no
exception escapes `run_all_tests`. -/
theorem run_converts_failures_and_continues (s : APICheckState)
    (http : Request → Option JValue) (base : String) (eo : Nat → Rat) (total : Rat)
    (tests : List TestCase) (i : Nat) (t : TestCase) (m : String)
    (h : ∀ t0 ∈ tests, uncaught (runTest http base t0) = false)
    (ht : tests[i]? = some t)
    (hm : runTest http base t = .error (.testFailed m)) :
    (run_all_tests s http base eo total tests).2 = none ∧
    (run_all_tests s http base eo total tests).1.results.length = tests.length ∧
    (run_all_tests s http base eo total tests).1.results[i]? =
      some { name := t.name.getD "ERROR: NAME NOT PROVIDED", status := "FAILED",
             elapsed_time := eo i, error_msg := some m } := by
  rw [run_all_tests_eq http base eo s total tests h]
  refine ⟨rfl, ?_, ?_⟩
  · exact caseResults_length http base eo tests 0
  · show (caseResults http base eo 0 tests)[i]? = _
    rw [caseResults_getElem http base eo tests 0 i, ht]
    simp [caseResult, hm]

theorem run_converts_failures_and_continues_witness :
    (run_all_tests ⟨[], 0, 0, 0⟩ (fun _ => some JValue.null) "h" (fun _ => 0) 0
        [{ name := some "bad", url := some "/x", method := some "PUT" },
         { name := some "ok", url := some "/y", method := some "GET" }]).2 = none ∧
    (run_all_tests ⟨[], 0, 0, 0⟩ (fun _ => some JValue.null) "h" (fun _ => 0) 0
        [{ name := some "bad", url := some "/x", method := some "PUT" },
         { name := some "ok", url := some "/y", method := some "GET" }]).1.results.length =
      2 ∧
    (run_all_tests ⟨[], 0, 0, 0⟩ (fun _ => some JValue.null) "h" (fun _ => 0) 0
        [{ name := some "bad", url := some "/x", method := some "PUT" },
         { name := some "ok", url := some "/y", method := some "GET" }]).1.results[0]? =
      some { name := "bad", status := "FAILED", elapsed_time := 0,
             error_msg := some "Malformed test. Allowed methods are GET and POST" } :=
  run_converts_failures_and_continues ⟨[], 0, 0, 0⟩ (fun _ => some JValue.null) "h"
    (fun _ => 0) 0
    [{ name := some "bad", url := some "/x", method := some "PUT" },
     { name := some "ok", url := some "/y", method := some "GET" }] 0
    { name := some "bad", url := some "/x", method := some "PUT" }
    "Malformed test. Allowed methods are GET and POST" (by decide) rfl (by decide)

/-- C3: after a run that completes (no uncaught exception), the
results list has exactly one entry per test case, in input order (the
i-th result is the recorded outcome of the i-th case); passed counts
the PASSED entries, failed the FAILED entries, and their sum is the
number of cases; and the outcome is independent of whatever statistics
the instance held before the run — results and both counters are reset
at the start. -/
theorem run_statistics (s sPrev : APICheckState) (http : Request → Option JValue)
    (base : String) (eo : Nat → Rat) (total : Rat) (tests : List TestCase) (i : Nat)
    (h : (run_all_tests s http base eo total tests).2 = none) :
    (run_all_tests s http base eo total tests).1.results.length = tests.length ∧
    (run_all_tests s http base eo total tests).1.passed +
      (run_all_tests s http base eo total tests).1.failed = tests.length ∧
    (run_all_tests s http base eo total tests).1.passed =
      (run_all_tests s http base eo total tests).1.results.countP
        (fun r => r.status == "PASSED") ∧
    (run_all_tests s http base eo total tests).1.failed =
      (run_all_tests s http base eo total tests).1.results.countP
        (fun r => r.status == "FAILED") ∧
    (run_all_tests s http base eo total tests).1.results[i]? =
      (tests[i]?).map (caseResult http base eo i) ∧
    run_all_tests sPrev http base eo total tests =
      run_all_tests s http base eo total tests := by
  have hne := run_all_tests_none_imp http base eo s total tests h
  rw [run_all_tests_eq http base eo s total tests hne,
      run_all_tests_eq http base eo sPrev total tests hne]
  refine ⟨caseResults_length http base eo tests 0, ?_, rfl, rfl, ?_, rfl⟩
  · exact caseResults_statuses http base eo tests hne 0
  · show (caseResults http base eo 0 tests)[i]? = _
    rw [caseResults_getElem http base eo tests 0 i]
    simp

theorem run_statistics_witness :
    (run_all_tests ⟨[], 0, 0, 0⟩ (fun _ => some JValue.null) "h" (fun _ => 0) 0
        [{ name := some "ok", url := some "/y", method := some "GET" },
         { name := some "bad", url := some "/x", method := some "PUT" }]).1.results.length =
      2 ∧
    (run_all_tests ⟨[], 0, 0, 0⟩ (fun _ => some JValue.null) "h" (fun _ => 0) 0
        [{ name := some "ok", url := some "/y", method := some "GET" },
         { name := some "bad", url := some "/x", method := some "PUT" }]).1.passed +
      (run_all_tests ⟨[], 0, 0, 0⟩ (fun _ => some JValue.null) "h" (fun _ => 0) 0
        [{ name := some "ok", url := some "/y", method := some "GET" },
         { name := some "bad", url := some "/x", method := some "PUT" }]).1.failed = 2 ∧
    (run_all_tests ⟨[], 0, 0, 0⟩ (fun _ => some JValue.null) "h" (fun _ => 0) 0
        [{ name := some "ok", url := some "/y", method := some "GET" },
         { name := some "bad", url := some "/x", method := some "PUT" }]).1.passed =
      (run_all_tests ⟨[], 0, 0, 0⟩ (fun _ => some JValue.null) "h" (fun _ => 0) 0
        [{ name := some "ok", url := some "/y", method := some "GET" },
         { name := some "bad", url := some "/x", method := some "PUT" }]).1.results.countP
        (fun r => r.status == "PASSED") ∧
    (run_all_tests ⟨[], 0, 0, 0⟩ (fun _ => some JValue.null) "h" (fun _ => 0) 0
        [{ name := some "ok", url := some "/y", method := some "GET" },
         { name := some "bad", url := some "/x", method := some "PUT" }]).1.failed =
      (run_all_tests ⟨[], 0, 0, 0⟩ (fun _ => some JValue.null) "h" (fun _ => 0) 0
        [{ name := some "ok", url := some "/y", method := some "GET" },
         { name := some "bad", url := some "/x", method := some "PUT" }]).1.results.countP
        (fun r => r.status == "FAILED") ∧
    (run_all_tests ⟨[], 0, 0, 0⟩ (fun _ => some JValue.null) "h" (fun _ => 0) 0
        [{ name := some "ok", url := some "/y", method := some "GET" },
         { name := some "bad", url := some "/x", method := some "PUT" }]).1.results[1]? =
      (([{ name := some "ok", url := some "/y", method := some "GET" },
          { name := some "bad", url := some "/x", method := some "PUT" }] :
            List TestCase)[1]?).map
        (caseResult (fun _ => some JValue.null) "h" (fun _ => 0) 1) ∧
    run_all_tests ⟨[⟨"old", "PASSED", 3, none⟩], 5, 6, 7⟩ (fun _ => some JValue.null) "h"
        (fun _ => 0) 0
        [{ name := some "ok", url := some "/y", method := some "GET" },
         { name := some "bad", url := some "/x", method := some "PUT" }] =
      run_all_tests ⟨[], 0, 0, 0⟩ (fun _ => some JValue.null) "h" (fun _ => 0) 0
        [{ name := some "ok", url := some "/y", method := some "GET" },
         { name := some "bad", url := some "/x", method := some "PUT" }] :=
  run_statistics ⟨[], 0, 0, 0⟩ ⟨[⟨"old", "PASSED", 3, none⟩], 5, 6, 7⟩
    (fun _ => some JValue.null) "h" (fun _ => 0) 0
    [{ name := some "ok", url := some "/y", method := some "GET" },
     { name := some "bad", url := some "/x", method := some "PUT" }] 1 (by decide)

end APICheck

